import Mathlib

/-!
# Verification of the OpenClaw remote fleet installation orchestrator

Shallow embedding of the core services of the `openclaw-wizard` backend:

* `src/backend/src/services/ssh.rs` — the remote session gateway
  (`check_connection`, `exec_remote`, `stream_remote_command`, host/user
  validation);
* `src/backend/src/services/remote.rs` — the single-server installation
  pipeline (`install_openclaw_remote` and its stage functions);
* `src/backend/src/services/multi_server.rs` — the multi-server
  orchestrator (registry CRUD, `deploy_to_servers`, `deploy_single_server`,
  `rollback_server`);
* `src/backend/src/services/config.rs` — JSON persistence of the server
  registry.

The network is modelled by an explicit environment (`SshWorld`) giving the
outcome of every connection attempt and of every remote command.  Effectful
operations return, next to their result, the list of network events (and,
for the streaming call, channel sends) they perform, in program order, so
that "X happens before Y" and "no network I/O happens" are statable.
Wall-clock timestamps are abstracted as `0`.
-/

/-! ## Data model (src/backend/src/models/types.rs) -/

/-- `CommandOutput` from ssh.rs: stdout / stderr / exit code of one remote
command.  `exit_code` is an `i32` in the source; the values produced there
are small, so `Int` is a faithful carrier. -/
structure CommandOutput where
  stdout : String
  stderr : String
  exit_code : Int
deriving Repr, DecidableEq

/-- `ServerTarget` from types.rs (field order as declared, which is also the
serde serialization order). -/
structure ServerTarget where
  id : String
  name : String
  host : String
  username : String
  key_path : String
  status : String
deriving Repr, DecidableEq

/-- `RemoteSetupProgress` from types.rs.  The `timestamp` field is filled from
the wall clock in the source; the model always uses `0`. -/
structure RemoteSetupProgress where
  stage : String
  status : String
  message : String
  error : Option String
  timestamp : Nat
deriving Repr, DecidableEq

/-- `MultiServerProgress` from types.rs: a `RemoteSetupProgress` relabelled
with the identity of the originating server. -/
structure MultiServerProgress where
  server_id : String
  server_name : String
  stage : String
  status : String
  message : String
  error : Option String
  timestamp : Nat
deriving Repr, DecidableEq

/-- `ServerDeployResult` from types.rs. -/
structure ServerDeployResult where
  server_id : String
  server_name : String
  success : Bool
  error : Option String
  completed_stages : List String
deriving Repr, DecidableEq

/-- `ChannelConfig` from types.rs. -/
structure ChannelConfig where
  platform : String
  enabled : Bool
  bot_token : Option String
  app_token : Option String
  dm_policy : String
  allowed_users : List String
deriving Repr, DecidableEq

/-- `WizardConfig` from types.rs. -/
structure WizardConfig where
  provider : String
  api_key : String
  auth_type : String
  gateway_port : Nat
  gateway_bind : String
  auth_mode : String
  auth_credential : Option String
  channels : Option (List ChannelConfig)
  base_url : Option String
  model_id : Option String
  compatibility : Option String
  account_id : Option String
  gateway_id : Option String
deriving Repr, DecidableEq

/-! ## The network environment

All remote I/O in the source goes through `openssh::Session::connect`
followed by `session.command(cmd).output()`.  `SshWorld` fixes the outcome
of both, per `(host, user)` respectively `(host, user, command)`; an
`Except.error` carries the error message the Rust side would observe. -/

structure SshWorld where
  connect : String → String → Except String Unit
  runCmd : String → String → String → Except String CommandOutput

/-- One network interaction, in program order. -/
inductive NetEvent where
  /-- `Session::connect(user@host, KnownHosts::Strict)` was attempted. -/
  | connect (host user : String)
  /-- `session.command(cmd).output()` was attempted. -/
  | exec (host user cmd : String)
deriving Repr, DecidableEq

/-! ## Validation helpers (ssh.rs lines 228-261) -/

/-- One character of the host regex class `[a-zA-Z0-9.-]`. -/
def isHostChar (c : Char) : Bool :=
  c.isAlphanum || c == '.' || c == '-'

/-- `SshService::validate_host`: reject empty, then require
`^[a-zA-Z0-9.-]+$`. -/
def validate_host (host : String) : Except String Unit :=
  if host.isEmpty then .error "Host cannot be empty"
  else if host.data.all isHostChar then .ok ()
  else .error ("Invalid host format: " ++ host)

/-- First character of the username regex `[a-z_]`. -/
def isUserFirstChar (c : Char) : Bool :=
  c.isLower || c == '_'

/-- Continuation character of the username regex `[a-z0-9_-]`. -/
def isUserChar (c : Char) : Bool :=
  c.isLower || c.isDigit || c == '_' || c == '-'

/-- `SshService::validate_username`: reject empty, then require
`^[a-z_][a-z0-9_-]*$`. -/
def validate_username (user : String) : Except String Unit :=
  if user.isEmpty then .error "Username cannot be empty"
  else if (match user.data with
           | [] => false
           | c :: rest => isUserFirstChar c && rest.all isUserChar)
  then .ok ()
  else .error ("Invalid username format: " ++ user)

/-! ## Substring matching (Rust `str::contains`) -/

/-- `pat` occurs as a contiguous sublist of `s`. -/
def containsSub (pat : List Char) : List Char → Bool
  | [] => pat.isEmpty
  | c :: rest => pat.isPrefixOf (c :: rest) || containsSub pat rest

/-- Rust `s.contains(pat)` for plain (non-pattern) substrings. -/
def strContains (s pat : String) : Bool :=
  containsSub pat.data s.data

/-- The classification in check_connection of a connect error as an expected
authentication failure (ssh.rs line 61). -/
def isAuthError (msg : String) : Bool :=
  strContains msg "permission denied" || strContains msg "authentication"

/-! ## Remote session gateway (ssh.rs) -/

/-- `SshService::check_connection`.  Result plus the network events
performed.  A validation failure returns before any connection attempt. -/
def check_connection (w : SshWorld) (host user : String) :
    Except String Bool × List NetEvent :=
  match validate_host host with
  | .error e => (.error e, [])
  | .ok _ =>
    match validate_username user with
    | .error e => (.error e, [])
    | .ok _ =>
      match w.connect host user with
      | .ok _ => (.ok true, [.connect host user])
      | .error e =>
        if isAuthError e then
          (.ok false, [.connect host user])
        else
          (.error ("Failed to establish SSH connection to " ++ user ++ "@" ++ host
                     ++ ": " ++ e),
           [.connect host user])

/-- `SshService::exec_remote`.  Validation and the empty-command check
happen before any network I/O; then connect, then run the command. -/
def exec_remote (w : SshWorld) (host user command : String) :
    Except String CommandOutput × List NetEvent :=
  match validate_host host with
  | .error e => (.error e, [])
  | .ok _ =>
    match validate_username user with
    | .error e => (.error e, [])
    | .ok _ =>
      if command.isEmpty then (.error "Remote command cannot be empty", [])
      else
        match w.connect host user with
        | .error e =>
          (.error ("Failed to connect to " ++ user ++ "@" ++ host ++ ": " ++ e),
           [.connect host user])
        | .ok _ =>
          match w.runCmd host user command with
          | .error e =>
            (.error ("Failed to execute remote command: " ++ command ++ ": " ++ e),
             [.connect host user, .exec host user command])
          | .ok out => (.ok out, [.connect host user, .exec host user command])

/-- Event trace of `stream_remote_command`, which interleaves network I/O
with channel sends, so its trace carries both kinds of step. -/
inductive StreamEvent where
  /-- `Session::connect` was attempted. -/
  | connect (host user : String)
  /-- `session.command(cmd).output()` returned: the remote command has run
  to completion and its output is fully buffered. -/
  | execDone (host user cmd : String)
  /-- one `tx.send(line)` on the channel of the caller. -/
  | send (line : String)
deriving Repr, DecidableEq

/-- Split a character list on `'\n'` (the groups between newlines, like
`split('\n')` on a Rust string). -/
def splitNl : List Char → List (List Char)
  | [] => [[]]
  | c :: rest =>
    if c = '\n' then [] :: splitNl rest
    else
      match splitNl rest with
      | [] => [[c]]
      | l :: ls => (c :: l) :: ls

/-- Drop one trailing `'\r'`, as Rust `str::lines()` does per line. -/
def stripCr (l : List Char) : List Char :=
  if l.getLast? = some '\r' then l.dropLast else l

/-- Rust `str::lines()`: split on `'\n'`, drop one trailing `'\r'` per line,
no empty trailing line for a trailing newline. -/
def rustLines (s : String) : List String :=
  if s.isEmpty then []
  else
    let parts := splitNl s.data
    let parts := if parts.getLast? = some [] then parts.dropLast else parts
    parts.map (fun l => String.mk (stripCr l))

/-- Rust `str::trim()`: strip leading and trailing whitespace.  (Rust trims
Unicode whitespace; every string this code trims is ASCII, where
`Char.isWhitespace` agrees.) -/
def rustTrim (s : String) : String :=
  String.mk (((s.data.dropWhile Char.isWhitespace).reverse.dropWhile
    Char.isWhitespace).reverse)

/-- `SshService::stream_remote_command`.  The source awaits the complete
buffered output first and only then sends each stdout line, then each
stderr line prefixed with `"STDERR: "`, to the channel; the trace records
that ordering. -/
def stream_remote_command (w : SshWorld) (host user command : String) :
    Except String CommandOutput × List StreamEvent :=
  match validate_host host with
  | .error e => (.error e, [])
  | .ok _ =>
    match validate_username user with
    | .error e => (.error e, [])
    | .ok _ =>
      if command.isEmpty then (.error "Remote command cannot be empty", [])
      else
        match w.connect host user with
        | .error e =>
          (.error ("Failed to connect to " ++ user ++ "@" ++ host ++ ": " ++ e),
           [.connect host user])
        | .ok _ =>
          match w.runCmd host user command with
          | .error e =>
            (.error ("Failed to execute remote command: " ++ command ++ ": " ++ e),
             [.connect host user, .execDone host user command])
          | .ok output =>
            let stdoutSends := (rustLines output.stdout).map StreamEvent.send
            let stderrSends :=
              (rustLines output.stderr).map (fun l => StreamEvent.send ("STDERR: " ++ l))
            (.ok output,
             [.connect host user, .execDone host user command]
               ++ stdoutSends ++ stderrSends)

/-- The lines sent on the channel during a `stream_remote_command` run. -/
def streamSentLines (evs : List StreamEvent) : List String :=
  evs.filterMap (fun e => match e with
    | .send l => some l
    | _ => none)

/-! ## Installation pipeline (src/backend/src/services/remote.rs) -/

/-- `NVM_INSTALL_URL` constant of remote.rs. -/
def NVM_INSTALL_URL : String :=
  "https://raw.githubusercontent.com/nvm-sh/nvm/v0.39.0/install.sh"

/-- `MIN_NODE_MAJOR` constant of remote.rs. -/
def MIN_NODE_MAJOR : Nat := 22

/-- The nvm bootstrap script of `install_node_via_nvm` (format! literal with
`NVM_INSTALL_URL` and `MIN_NODE_MAJOR` interpolated). -/
def nvmScript : String :=
  "set -e\ncurl -o- " ++ NVM_INSTALL_URL ++ " | bash\nexport NVM_DIR=\"$HOME/.nvm\"\n[ -s \"$NVM_DIR/nvm.sh\" ] && \\. \"$NVM_DIR/nvm.sh\"\nnvm install "
    ++ toString MIN_NODE_MAJOR ++ "\nnvm use " ++ toString MIN_NODE_MAJOR
    ++ "\nnvm alias default " ++ toString MIN_NODE_MAJOR ++ "\nnode --version"

/-- The remote Node.js version probe of `stage_ensure_node`. -/
def nodeProbeCmd : String := "node --version 2>/dev/null"

/-- The npm global-install command of `stage_install_openclaw`. -/
def npmInstallCmd : String :=
  "export NVM_DIR=\"$HOME/.nvm\"\n[ -s \"$NVM_DIR/nvm.sh\" ] && \\. \"$NVM_DIR/nvm.sh\"\nnpm install -g openclaw"

/-- The daemon install command of `stage_install_daemon`. -/
def daemonInstallCmd : String :=
  "export NVM_DIR=\"$HOME/.nvm\"\n[ -s \"$NVM_DIR/nvm.sh\" ] && \\. \"$NVM_DIR/nvm.sh\"\nopenclaw install-daemon"

/-- The daemon start command of `stage_start_daemon`. -/
def daemonStartCmd : String :=
  "export NVM_DIR=\"$HOME/.nvm\"\n[ -s \"$NVM_DIR/nvm.sh\" ] && \\. \"$NVM_DIR/nvm.sh\"\nopenclaw start"

/-- `RemoteService::send_progress`, with the wall-clock timestamp
abstracted as `0`. -/
def mkProgress (stage status message : String) (error : Option String) :
    RemoteSetupProgress :=
  { stage := stage, status := status, message := message, error := error,
    timestamp := 0 }

/-- Rust `u32::from_str`: optional leading `'+'`, then one or more ASCII
digits, value below `2^32`. -/
def parseU32 (s : String) : Option Nat :=
  let digits := match s.data with
    | '+' :: rest => rest
    | l => l
  if digits.isEmpty then none
  else if digits.all Char.isDigit then
    let v := digits.foldl (fun acc c => acc * 10 + (c.toNat - 48)) 0
    if v < 4294967296 then some v else none
  else none

/-- `RemoteService::parse_node_major`: trim, strip leading `'v'`s, take the
text before the first `'.'` (Rust `split('.').next()` — always `Some`),
parse as `u32`. -/
def parse_node_major (versionStr : String) : Option Nat :=
  let trimmed := (rustTrim versionStr).data.dropWhile (fun c => c == 'v')
  parseU32 (String.mk (trimmed.takeWhile (fun c => !(c == '.'))))

/-- `RemoteService::stage_check_connection`: one `in_progress` event, then
classify the `check_connection` outcome. -/
def stage_check_connection (w : SshWorld) (host user : String) :
    Except String Unit × List RemoteSetupProgress :=
  let ev0 := mkProgress "connection" "in_progress" "Connecting to remote server..." none
  match (check_connection w host user).1 with
  | .ok true =>
    (.ok (),
     [ev0, mkProgress "connection" "completed" ("Connected to " ++ user ++ "@" ++ host) none])
  | .ok false =>
    let msg := "SSH authentication failed. Check your SSH key and username."
    (.error msg, [ev0, mkProgress "connection" "failed" msg (some msg)])
  | .error e =>
    let msg := "SSH connection failed: " ++ e
    (.error ("SSH connection check failed: " ++ e),
     [ev0, mkProgress "connection" "failed" msg (some msg)])

/-- `RemoteService::install_node_via_nvm`: stream the nvm bootstrap script,
forwarding every streamed line as an `in_progress` node event, then settle
on the buffered result (exit 0 → `completed`; nonzero exit or transport
error → `failed` event and pipeline error). -/
def install_node_via_nvm (w : SshWorld) (host user : String) :
    Except String Unit × List RemoteSetupProgress :=
  let ev0 := mkProgress "node" "in_progress" "Installing Node.js via nvm..." none
  let (res, sevs) := stream_remote_command w host user nvmScript
  let lineEvs := (streamSentLines sevs).map (fun l => mkProgress "node" "in_progress" l none)
  match res with
  | .ok output =>
    if output.exit_code = 0 then
      let version := rustTrim (((rustLines output.stdout).getLast?).getD "v22")
      (.ok (),
       ev0 :: lineEvs
         ++ [mkProgress "node" "completed" ("Node.js " ++ version ++ " installed successfully") none])
    else
      let msg := "Node.js installation failed (exit code " ++ toString output.exit_code ++ ")"
      let detail := if output.stderr ≠ "" then ((rustLines output.stderr).getLast?).getD msg
                    else msg
      (.error msg, ev0 :: lineEvs ++ [mkProgress "node" "failed" msg (some detail)])
  | .error e =>
    let msg := "Node.js installation failed: " ++ e
    (.error ("Failed to install Node.js via nvm: " ++ e),
     ev0 :: lineEvs ++ [mkProgress "node" "failed" msg (some msg)])

/-- `RemoteService::stage_ensure_node`: probe `node --version`; if it
succeeds with major ≥ `MIN_NODE_MAJOR`, report `completed`; otherwise (old
version, unparsable version, nonzero exit, or transport error) install via
nvm. -/
def stage_ensure_node (w : SshWorld) (host user : String) :
    Except String Unit × List RemoteSetupProgress :=
  let ev0 := mkProgress "node" "in_progress" "Checking Node.js installation..." none
  match (exec_remote w host user nodeProbeCmd).1 with
  | .ok output =>
    if output.exit_code = 0 then
      let versionStr := rustTrim output.stdout
      match parse_node_major versionStr with
      | some major =>
        if MIN_NODE_MAJOR ≤ major then
          (.ok (),
           [ev0, mkProgress "node" "completed" ("Node.js " ++ versionStr ++ " already installed") none])
        else
          let (r, evs) := install_node_via_nvm w host user
          (r, ev0 :: evs)
      | none =>
        let (r, evs) := install_node_via_nvm w host user
        (r, ev0 :: evs)
    else
      let (r, evs) := install_node_via_nvm w host user
      (r, ev0 :: evs)
  | .error _ =>
    let (r, evs) := install_node_via_nvm w host user
    (r, ev0 :: evs)

/-- `RemoteService::stage_install_openclaw`: stream the npm install,
forwarding lines; exit 0 → `completed`, nonzero → `failed` + error,
transport error → `failed` + error. -/
def stage_install_openclaw (w : SshWorld) (host user : String) :
    Except String Unit × List RemoteSetupProgress :=
  let ev0 := mkProgress "openclaw" "in_progress" "Installing OpenClaw via npm..." none
  let (res, sevs) := stream_remote_command w host user npmInstallCmd
  let lineEvs := (streamSentLines sevs).map (fun l => mkProgress "openclaw" "in_progress" l none)
  match res with
  | .ok output =>
    if output.exit_code = 0 then
      (.ok (),
       ev0 :: lineEvs ++ [mkProgress "openclaw" "completed" "OpenClaw installed successfully" none])
    else
      let msg := "OpenClaw installation failed (exit code " ++ toString output.exit_code ++ ")"
      let detail := if output.stderr ≠ "" then ((rustLines output.stderr).getLast?).getD msg
                    else msg
      (.error msg, ev0 :: lineEvs ++ [mkProgress "openclaw" "failed" msg (some detail)])
  | .error e =>
    let msg := "OpenClaw installation failed: " ++ e
    (.error ("Failed to install OpenClaw via npm: " ++ e),
     ev0 :: lineEvs ++ [mkProgress "openclaw" "failed" msg (some msg)])

/-! ## JSON values (`serde_json::Value`) and the serde pretty printer

`stage_write_config` serializes the built config with
`serde_json::to_string_pretty`; the registry is persisted through the same
serializer (config.rs).  Key order inside objects is kept as insertion
order here — it is a serialization detail none of the verified properties
depend on. -/

inductive Json where
  | str (s : String)
  | num (n : Int)
  | bool (b : Bool)
  | null
  | arr (xs : List Json)
  | obj (fields : List (String × Json))

/-- Lower-case hex digit. -/
def hexDigit (n : Nat) : Char :=
  if n < 10 then Char.ofNat (48 + n) else Char.ofNat (87 + n)

/-- The escaping serde_json applies to one character inside a JSON string. -/
def escapeJsonChar (c : Char) : String :=
  if c == '"' then "\\\""
  else if c == '\\' then "\\\\"
  else if c == '\x08' then "\\b"
  else if c == '\x0c' then "\\f"
  else if c == '\n' then "\\n"
  else if c == '\r' then "\\r"
  else if c == '\t' then "\\t"
  else if c.toNat < 32 then
    "\\u00" ++ String.mk [hexDigit (c.toNat / 16), hexDigit (c.toNat % 16)]
  else String.singleton c

/-- A JSON string literal with serde escaping. -/
def escapeJsonString (s : String) : String :=
  "\"" ++ String.join (s.data.map escapeJsonChar) ++ "\""

/-- Two spaces of indentation per level (`to_string_pretty`). -/
def jsonIndent (n : Nat) : String :=
  String.mk (List.replicate (2 * n) ' ')

mutual

/-- `serde_json::to_string_pretty` of a value at indentation level `ind`. -/
def renderJson : Json → Nat → String
  | .str s, _ => escapeJsonString s
  | .num n, _ => toString n
  | .bool b, _ => if b then "true" else "false"
  | .null, _ => "null"
  | .arr [], _ => "[]"
  | .arr (x :: xs), ind =>
      "[\n" ++ renderItems (x :: xs) (ind + 1) ++ "\n" ++ jsonIndent ind ++ "]"
  | .obj [], _ => "\x7b\x7d"
  | .obj (f :: fs), ind =>
      "\x7b\n" ++ renderFields (f :: fs) (ind + 1) ++ "\n" ++ jsonIndent ind ++ "\x7d"

/-- Comma-and-newline separated array items, each indented. -/
def renderItems : List Json → Nat → String
  | [], _ => ""
  | [x], ind => jsonIndent ind ++ renderJson x ind
  | x :: y :: rest, ind =>
      jsonIndent ind ++ renderJson x ind ++ ",\n" ++ renderItems (y :: rest) ind

/-- Comma-and-newline separated object fields, each indented. -/
def renderFields : List (String × Json) → Nat → String
  | [], _ => ""
  | [(k, v)], ind => jsonIndent ind ++ escapeJsonString k ++ ": " ++ renderJson v ind
  | (k, v) :: g :: rest, ind =>
      jsonIndent ind ++ escapeJsonString k ++ ": " ++ renderJson v ind ++ ",\n"
        ++ renderFields (g :: rest) ind

end

/-- `RemoteService::build_openclaw_config`: the channel sub-object. -/
def build_channel_json (ch : ChannelConfig) : Json :=
  let base := [("platform", Json.str ch.platform),
               ("enabled", Json.bool ch.enabled),
               ("dmPolicy", Json.str ch.dm_policy),
               ("allowedUsers", Json.arr (ch.allowed_users.map Json.str))]
  let base := match ch.bot_token with
    | some t => base ++ [("botToken", Json.str t)]
    | none => base
  let base := match ch.app_token with
    | some t => base ++ [("appToken", Json.str t)]
    | none => base
  Json.obj base

/-- `RemoteService::build_openclaw_config`: ai / gateway / auth blocks,
optional auth credential, optional channel list.  (The Rust version returns
`Result` only because of the `serde_json` API; construction itself cannot
fail.) -/
def build_openclaw_config (config : WizardConfig) : Json :=
  let authFields := [("mode", Json.str config.auth_mode)]
  let authFields := match config.auth_credential with
    | some cred => authFields ++ [("credential", Json.str cred)]
    | none => authFields
  let fields :=
    [("ai", Json.obj [("provider", Json.str config.provider),
                      ("apiKey", Json.str config.api_key),
                      ("authType", Json.str config.auth_type)]),
     ("gateway", Json.obj [("port", Json.num config.gateway_port),
                           ("bind", Json.str config.gateway_bind)]),
     ("auth", Json.obj authFields)]
  let fields := match config.channels with
    | some channels => fields ++ [("channels", Json.arr (channels.map build_channel_json))]
    | none => fields
  Json.obj fields

/-- The heredoc write command of `stage_write_config`. -/
def writeConfigCmd (configJson : String) : String :=
  "mkdir -p ~/.openclaw && cat > ~/.openclaw/openclaw.json << 'OPENCLAW_CONFIG_EOF'\n"
    ++ configJson ++ "\nOPENCLAW_CONFIG_EOF"

/-- `RemoteService::stage_write_config`.  Note the source propagates a
transport-level `exec_remote` error with `?` before any `failed` event is
sent; only a nonzero exit code produces a `failed` event. -/
def stage_write_config (w : SshWorld) (host user : String) (config : WizardConfig) :
    Except String Unit × List RemoteSetupProgress :=
  let ev0 := mkProgress "config" "in_progress" "Writing OpenClaw configuration..." none
  let configJson := renderJson (build_openclaw_config config) 0
  match (exec_remote w host user (writeConfigCmd configJson)).1 with
  | .error e => (.error ("Failed to write config remotely: " ++ e), [ev0])
  | .ok output =>
    if output.exit_code ≠ 0 then
      let msg := "Failed to write config: " ++ rustTrim output.stderr
      (.error msg, [ev0, mkProgress "config" "failed" msg (some msg)])
    else
      (.ok (),
       [ev0, mkProgress "config" "completed"
               "OpenClaw configuration written to ~/.openclaw/openclaw.json" none])

/-- `RemoteService::stage_install_daemon`.  As in `stage_write_config`, a
transport-level error is propagated before any `failed` event. -/
def stage_install_daemon (w : SshWorld) (host user : String) :
    Except String Unit × List RemoteSetupProgress :=
  let ev0 := mkProgress "daemon" "in_progress" "Installing OpenClaw daemon..." none
  match (exec_remote w host user daemonInstallCmd).1 with
  | .error e => (.error ("Failed to install daemon: " ++ e), [ev0])
  | .ok output =>
    if output.exit_code ≠ 0 then
      let msg := "Daemon installation failed: " ++ rustTrim output.stderr
      (.error msg, [ev0, mkProgress "daemon" "failed" msg (some msg)])
    else
      (.ok (),
       [ev0, mkProgress "daemon" "in_progress" "Daemon installed, preparing to start..." none])

/-- `RemoteService::stage_start_daemon`.  Same transport-error caveat. -/
def stage_start_daemon (w : SshWorld) (host user : String) :
    Except String Unit × List RemoteSetupProgress :=
  let ev0 := mkProgress "daemon" "in_progress" "Starting OpenClaw daemon..." none
  match (exec_remote w host user daemonStartCmd).1 with
  | .error e => (.error ("Failed to start daemon: " ++ e), [ev0])
  | .ok output =>
    if output.exit_code ≠ 0 then
      let msg := "Failed to start daemon: " ++ rustTrim output.stderr
      (.error msg, [ev0, mkProgress "daemon" "failed" msg (some msg)])
    else
      (.ok (),
       [ev0, mkProgress "daemon" "completed" "OpenClaw daemon started successfully" none])

/-- `RemoteService::install_openclaw_remote`: the six stages in sequence,
each `?`-propagating its error, then the final `complete` event.  The
second component is everything sent on the per-run progress channel, in
order. -/
def install_openclaw_remote (w : SshWorld) (host user : String) (config : WizardConfig) :
    Except String Unit × List RemoteSetupProgress :=
  let (r1, e1) := stage_check_connection w host user
  match r1 with
  | .error e => (.error e, e1)
  | .ok _ =>
  let (r2, e2) := stage_ensure_node w host user
  match r2 with
  | .error e => (.error e, e1 ++ e2)
  | .ok _ =>
  let (r3, e3) := stage_install_openclaw w host user
  match r3 with
  | .error e => (.error e, e1 ++ e2 ++ e3)
  | .ok _ =>
  let (r4, e4) := stage_write_config w host user config
  match r4 with
  | .error e => (.error e, e1 ++ e2 ++ e3 ++ e4)
  | .ok _ =>
  let (r5, e5) := stage_install_daemon w host user
  match r5 with
  | .error e => (.error e, e1 ++ e2 ++ e3 ++ e4 ++ e5)
  | .ok _ =>
  let (r6, e6) := stage_start_daemon w host user
  match r6 with
  | .error e => (.error e, e1 ++ e2 ++ e3 ++ e4 ++ e5 ++ e6)
  | .ok _ =>
    (.ok (),
     e1 ++ e2 ++ e3 ++ e4 ++ e5 ++ e6
       ++ [mkProgress "complete" "completed" "Remote setup complete!" none])

/-! ## Multi-server orchestrator (src/backend/src/services/multi_server.rs)

The registry file is modelled as the list of `ServerTarget`s it holds
(`load_servers` / `save_servers` are a parse/print pair over it, embedded
below for the round-trip property).  Concurrency is modelled by
sequentializing the workers in spawn order: workers share no mutable state
in the source (each owns its private channel; the scheduler collects one
result per worker), so any interleaving yields the same per-server results
and the same per-server event subsequences. -/

/-- `MAX_PARALLEL_DEPLOYMENTS` constant of multi_server.rs. -/
def MAX_PARALLEL_DEPLOYMENTS : Nat := 5

/-- The target-selection step of `deploy_to_servers` (lines 146-151):
filter the registry to the requested ids, then cap at
`MAX_PARALLEL_DEPLOYMENTS`. -/
def selectTargets (registry : List ServerTarget) (server_ids : List String) :
    List ServerTarget :=
  ((registry.filter (fun s => server_ids.contains s.id)).take MAX_PARALLEL_DEPLOYMENTS)

/-- The forwarding task of `deploy_single_server`: completed-stage names in
event order. -/
def completedStages (evs : List RemoteSetupProgress) : List String :=
  (evs.filter (fun p => p.status == "completed")).map (fun p => p.stage)

/-- Relabelling done by the forwarding task of `deploy_single_server`. -/
def toMultiProgress (server_id server_name : String) (p : RemoteSetupProgress) :
    MultiServerProgress :=
  { server_id := server_id, server_name := server_name, stage := p.stage,
    status := p.status, message := p.message, error := p.error,
    timestamp := p.timestamp }

/-- `MultiServerOrchestrator::deploy_single_server`: run the pipeline,
relabel its progress with the server identity, and build the
`ServerDeployResult` from the pipeline outcome plus the collected
completed stages. -/
def deploy_single_server (w : SshWorld) (target : ServerTarget) (config : WizardConfig) :
    ServerDeployResult × List MultiServerProgress :=
  let (res, evs) := install_openclaw_remote w target.host target.username config
  let multiEvs := evs.map (toMultiProgress target.id target.name)
  let cs := completedStages evs
  match res with
  | .ok _ =>
    ({ server_id := target.id, server_name := target.name, success := true,
       error := none, completed_stages := cs }, multiEvs)
  | .error e =>
    ({ server_id := target.id, server_name := target.name, success := false,
       error := some e, completed_stages := cs }, multiEvs)

/-- The status update after a deploy batch (lines 176-187): for each result,
set the status of the first registry entry with that id. -/
def updateFirst (l : List ServerTarget) (rid st : String) : List ServerTarget :=
  match l with
  | [] => []
  | s :: rest =>
    if s.id == rid then { s with status := st } :: rest
    else s :: updateFirst rest rid st

/-- Fold of `updateFirst` over the results of a deploy batch. -/
def applyResults (registry : List ServerTarget) (results : List ServerDeployResult) :
    List ServerTarget :=
  results.foldl
    (fun reg r => updateFirst reg r.server_id (if r.success then "deployed" else "failed"))
    registry

/-- `MultiServerOrchestrator::deploy_to_servers`: select targets, run one
worker per target, aggregate the relabelled progress, then reload the
registry, update the affected statuses and save once.  Returns (results,
aggregate progress stream, saved registry). -/
def deploy_to_servers (w : SshWorld) (registry : List ServerTarget)
    (server_ids : List String) (config : WizardConfig) :
    List ServerDeployResult × List MultiServerProgress × List ServerTarget :=
  let targets := selectTargets registry server_ids
  let outs := targets.map (fun t => deploy_single_server w t config)
  let results := outs.map Prod.fst
  let events := (outs.map Prod.snd).flatten
  (results, events, applyResults registry results)

/-! ## Rollback saga (multi_server.rs `rollback_server`) -/

/-- The stop-daemon command of `rollback_server` stage 1. -/
def stopDaemonCmd : String :=
  "export NVM_DIR=\"$HOME/.nvm\"\n[ -s \"$NVM_DIR/nvm.sh\" ] && \\. \"$NVM_DIR/nvm.sh\"\nopenclaw daemon stop 2>/dev/null || pkill -f \"openclaw\" 2>/dev/null || true"

/-- The remove-config command of `rollback_server` stage 2. -/
def rmConfigCmd : String := "rm -f ~/.openclaw/openclaw.json"

/-- The uninstall command of `rollback_server` stage 3. -/
def uninstallCmd : String :=
  "export NVM_DIR=\"$HOME/.nvm\"\n[ -s \"$NVM_DIR/nvm.sh\" ] && \\. \"$NVM_DIR/nvm.sh\"\nnpm uninstall -g @anthropic/openclaw 2>/dev/null || true"

/-- Observable outcome of one `rollback_server` call: the returned value,
every `save_servers` write performed (in order), and the network events. -/
structure RollbackRun where
  result : Except String ServerDeployResult
  registryWrites : List (List ServerTarget)
  netEvents : List NetEvent
deriving Repr

/-- `MultiServerOrchestrator::rollback_server`: unknown id fails before any
remote command and before any write; otherwise the three compensating
commands run unconditionally in order, the stage name is collected into
`completed_stages` when its `exec_remote` returns `Ok`, `last_error` keeps
the message of the latest failing stage, the first matching registry entry
is reset to `"pending"` and saved once, and `success` is `last_error
.is_none()`. -/
def rollback_server (w : SshWorld) (registry : List ServerTarget) (id : String) :
    RollbackRun :=
  match registry.find? (fun s => s.id == id) with
  | none =>
    { result := .error ("Server not found: " ++ id), registryWrites := [], netEvents := [] }
  | some server =>
    let (r1, n1) := exec_remote w server.host server.username stopDaemonCmd
    let (cs1, err1) : List String × Option String :=
      match r1 with
      | .ok _ => (["stop_daemon"], none)
      | .error e => ([], some ("Failed to stop daemon: " ++ e))
    let (r2, n2) := exec_remote w server.host server.username rmConfigCmd
    let (cs2, err2) : List String × Option String :=
      match r2 with
      | .ok _ => (["remove_config"], err1)
      | .error e => ([], some ("Failed to remove config: " ++ e))
    let (r3, n3) := exec_remote w server.host server.username uninstallCmd
    let (cs3, err3) : List String × Option String :=
      match r3 with
      | .ok _ => (["uninstall_openclaw"], err2)
      | .error e => ([], some ("Failed to uninstall: " ++ e))
    let registry2 := updateFirst registry id "pending"
    { result := .ok { server_id := id, server_name := server.name,
                      success := err3.isNone, error := err3,
                      completed_stages := cs1 ++ cs2 ++ cs3 },
      registryWrites := [registry2],
      netEvents := n1 ++ n2 ++ n3 }

/-! ## Registry CRUD (multi_server.rs `add_server` / `remove_server`) -/

/-- `MultiServerOrchestrator::add_server`.  `genId` stands for the value
`generate_server_id()` returns (wall-clock based in the source).  Defaults
are filled for an empty id or status, then the target is appended and the
list saved.  Returns (saved list, stored target). -/
def add_server (registry : List ServerTarget) (server : ServerTarget) (genId : String) :
    List ServerTarget × ServerTarget :=
  let server := if server.id.isEmpty then { server with id := genId } else server
  let server := if server.status.isEmpty then { server with status := "pending" } else server
  (registry ++ [server], server)

/-- `MultiServerOrchestrator::remove_server`: drop every entry with the id;
error if nothing was dropped. -/
def remove_server (registry : List ServerTarget) (id : String) :
    Except String (List ServerTarget) :=
  let remaining := registry.filter (fun s => !(s.id == id))
  if remaining.length = registry.length then .error ("Server not found: " ++ id)
  else .ok remaining

/-- No two registry entries share an id. -/
def NoDupIds (registry : List ServerTarget) : Prop :=
  (registry.map (fun s => s.id)).Nodup

/-! ## Registry persistence (config.rs `write_json` / `read_json` over
`Vec<ServerTarget>`)

`save_servers` serializes the list with serde (derived `Serialize`, fields
in declaration order) and atomically replaces the file; `load_servers`
parses it back (derived `Deserialize`).  Since `to_string_pretty` is a
deterministic injective printer, the file content is modelled by the JSON
value it holds. -/

/-- Derived `Serialize` for `ServerTarget`: object with the six fields in
declaration order. -/
def serverTargetToJson (s : ServerTarget) : Json :=
  .obj [("id", .str s.id), ("name", .str s.name), ("host", .str s.host),
        ("username", .str s.username), ("key_path", .str s.key_path),
        ("status", .str s.status)]

/-- Field lookup in a JSON object (first occurrence). -/
def jsonGetField (j : Json) (key : String) : Option Json :=
  match j with
  | .obj fields => (fields.find? (fun f => f.1 == key)).map (fun f => f.2)
  | _ => none

/-- Extract a JSON string. -/
def jsonAsString : Json → Option String
  | .str s => some s
  | _ => none

/-- Derived `Deserialize` for `ServerTarget`: require the six string
fields. -/
def serverTargetFromJson (j : Json) : Option ServerTarget := do
  let id ← (jsonGetField j "id").bind jsonAsString
  let name ← (jsonGetField j "name").bind jsonAsString
  let host ← (jsonGetField j "host").bind jsonAsString
  let username ← (jsonGetField j "username").bind jsonAsString
  let key_path ← (jsonGetField j "key_path").bind jsonAsString
  let status ← (jsonGetField j "status").bind jsonAsString
  pure { id := id, name := name, host := host, username := username,
         key_path := key_path, status := status }

/-- `save_servers`: the JSON value written to servers.json. -/
def serversToJson (l : List ServerTarget) : Json :=
  .arr (l.map serverTargetToJson)

/-- Element-wise deserialization of the registry array (serde sequence
visitor: fail on the first bad element). -/
def targetsFromJsonList : List Json → Option (List ServerTarget)
  | [] => some []
  | j :: rest => do
    let t ← serverTargetFromJson j
    let ts ← targetsFromJsonList rest
    pure (t :: ts)

/-- `load_servers` on an existing file: parse the JSON array back into
targets. -/
def serversFromJson (j : Json) : Option (List ServerTarget) :=
  match j with
  | .arr xs => targetsFromJsonList xs
  | _ => none

/-! ## Concrete fixtures for witnesses and counterexamples -/

/-- `Result::is_ok` for the embedded `Except` results. -/
def exceptIsOk : Except ε α → Bool
  | .ok _ => true
  | .error _ => false

/-- A registered server with id `"a"`. -/
def tgtA : ServerTarget :=
  { id := "a", name := "alpha", host := "example.com", username := "root",
    key_path := "", status := "pending" }

/-- A second target carrying the same non-empty id `"a"` as `tgtA`. -/
def tgtA2 : ServerTarget :=
  { id := "a", name := "beta", host := "h2.example.com", username := "root",
    key_path := "", status := "pending" }

/-- A network where every connect and every command succeeds with empty
output. -/
def wOk : SshWorld :=
  { connect := fun _ _ => .ok (),
    runCmd := fun _ _ _ => .ok { stdout := "", stderr := "", exit_code := 0 } }

/-- A network where the remote side rejects the credentials: connect fails
with a message the source classifies as an authentication failure. -/
def wAuthReject : SshWorld :=
  { connect := fun _ _ => .error "authentication failure",
    runCmd := fun _ _ _ => .error "no session" }

/-- A network where every command succeeds and produces two stdout lines
and one stderr line. -/
def wStream : SshWorld :=
  { connect := fun _ _ => .ok (),
    runCmd := fun _ _ _ =>
      .ok { stdout := "hello\nworld\n", stderr := "oops\n", exit_code := 0 } }

/-- A minimal wizard configuration (no credential, no channels). -/
def cfg0 : WizardConfig :=
  { provider := "openai", api_key := "k", auth_type := "api-key", gateway_port := 3000,
    gateway_bind := "127.0.0.1", auth_mode := "none", auth_credential := none,
    channels := none, base_url := none, model_id := none, compatibility := none,
    account_id := none, gateway_id := none }

/-- A network where connection and the node / openclaw stages succeed
(Node.js 22 already present, npm install clean) but every other command —
in particular the config heredoc write — fails at the transport level. -/
def wCfgFail : SshWorld :=
  { connect := fun _ _ => .ok (),
    runCmd := fun _ _ cmd =>
      if cmd = nodeProbeCmd then .ok { stdout := "v22.12.0\n", stderr := "", exit_code := 0 }
      else if cmd = npmInstallCmd then .ok { stdout := "", stderr := "", exit_code := 0 }
      else .error "connection reset by peer" }

/-! ## Helper lemmas -/

/-- A whitespace character or `'@'` is outside the host character class. -/
theorem isHostChar_ws_at_false (c : Char) (h : c.isWhitespace = true ∨ c = '@') :
    isHostChar c = false := by
  rcases h with h | h
  · simp [Char.isWhitespace] at h
    have h4 : c = ' ' ∨ c = '\t' ∨ c = '\x0d' ∨ c = '\n' := by tauto
    rcases h4 with h | h | h | h <;> rw [h] <;> decide
  · rw [h]; decide

/-- Deserializing a serialized target gives the target back. -/
theorem target_round_trip (s : ServerTarget) :
    serverTargetFromJson (serverTargetToJson s) = some s := rfl

/-- A status update never changes the id column of the registry. -/
theorem updateFirst_map_id (l : List ServerTarget) (rid st : String) :
    (updateFirst l rid st).map (fun s => s.id) = l.map (fun s => s.id) := by
  induction l with
  | nil => rfl
  | cons s rest ih =>
    unfold updateFirst
    split <;> simp [ih]

/-- The result a worker returns carries the id of its target. -/
theorem deploy_single_server_id (w : SshWorld) (t : ServerTarget) (config : WizardConfig) :
    (deploy_single_server w t config).1.server_id = t.id := by
  unfold deploy_single_server
  cases hres : (install_openclaw_remote w t.host t.username config).1 <;> simp [hres]

/-- The events a worker forwards are exactly the pipeline events relabelled
with the identity of its target. -/
theorem deploy_single_server_snd (w : SshWorld) (t : ServerTarget) (config : WizardConfig) :
    (deploy_single_server w t config).2
      = (install_openclaw_remote w t.host t.username config).2.map
          (toMultiProgress t.id t.name) := by
  unfold deploy_single_server
  cases hres : (install_openclaw_remote w t.host t.username config).1 <;> simp [hres]

/-- Every event a worker forwards carries the id of its target. -/
theorem deploy_single_server_event_id (w : SshWorld) (t : ServerTarget) (config : WizardConfig)
    (e : MultiServerProgress) (he : e ∈ (deploy_single_server w t config).2) :
    e.server_id = t.id := by
  rw [deploy_single_server_snd] at he
  simp only [List.mem_map] at he
  obtain ⟨p, _, hp⟩ := he
  rw [← hp]
  rfl

/-! ## Claim theorems -/

set_option maxRecDepth 8192 in
/-- C1: the claim states that every failing installation run emits exactly
one `failed` event for the failing stage before the error return.  The code
violates this: `stage_write_config` (and both daemon stages) propagate a
transport-level `exec_remote` error with `?` before sending any event.  At
the concrete failing input — connection, node and openclaw succeed, the
config write command fails at transport level — the run returns an error,
`completed_stages` is `["connection", "node", "openclaw"]`, no daemon or
complete event occurs, and the event stream contains no `failed` event at
all (the config stage contributes only its `in_progress` event). -/
theorem install_config_transport_error_unreported :
    exceptIsOk (install_openclaw_remote wCfgFail "example.com" "root" cfg0).1 = false ∧
    (install_openclaw_remote wCfgFail "example.com" "root" cfg0).2 =
      [mkProgress "connection" "in_progress" "Connecting to remote server..." none,
       mkProgress "connection" "completed" "Connected to root@example.com" none,
       mkProgress "node" "in_progress" "Checking Node.js installation..." none,
       mkProgress "node" "completed" "Node.js v22.12.0 already installed" none,
       mkProgress "openclaw" "in_progress" "Installing OpenClaw via npm..." none,
       mkProgress "openclaw" "completed" "OpenClaw installed successfully" none,
       mkProgress "config" "in_progress" "Writing OpenClaw configuration..." none] ∧
    completedStages (install_openclaw_remote wCfgFail "example.com" "root" cfg0).2 =
      ["connection", "node", "openclaw"] ∧
    ((install_openclaw_remote wCfgFail "example.com" "root" cfg0).2.filter
        (fun p => p.status == "failed")) = [] :=
  ⟨rfl, rfl, rfl, rfl⟩

/-- C2: `deploy_to_servers` selects at most `MAX_PARALLEL_DEPLOYMENTS` (5)
matching registry targets and spawns exactly one worker per selected
target: the result batch has exactly the selected ids, every aggregate
progress event carries a selected id, and a registry entry whose requested
id falls beyond the cap gets no result entry (and, by the event property,
no progress event). -/
theorem deploy_to_servers_cap (w : SshWorld) (registry : List ServerTarget)
    (server_ids : List String) (config : WizardConfig) :
    (selectTargets registry server_ids).length ≤ MAX_PARALLEL_DEPLOYMENTS ∧
    ((deploy_to_servers w registry server_ids config).1.map (fun r => r.server_id)
       = (selectTargets registry server_ids).map (fun s => s.id)) ∧
    (∀ e ∈ (deploy_to_servers w registry server_ids config).2.1,
        e.server_id ∈ (selectTargets registry server_ids).map (fun s => s.id)) ∧
    (∀ s ∈ registry, server_ids.contains s.id = true →
        s.id ∉ (selectTargets registry server_ids).map (fun t => t.id) →
        ∀ r ∈ (deploy_to_servers w registry server_ids config).1, r.server_id ≠ s.id) := by
  have hres : (deploy_to_servers w registry server_ids config).1.map (fun r => r.server_id)
      = (selectTargets registry server_ids).map (fun s => s.id) := by
    unfold deploy_to_servers
    simp [List.map_map, Function.comp, deploy_single_server_id]
  refine ⟨?_, hres, ?_, ?_⟩
  · unfold selectTargets
    exact List.length_take_le _ _
  · intro e he
    unfold deploy_to_servers at he
    simp only [List.mem_flatten, List.map_map, List.mem_map, Function.comp] at he
    obtain ⟨l, ⟨t, ht, hl⟩, hel⟩ := he
    rw [← hl] at hel
    rw [deploy_single_server_event_id w t config e hel]
    exact List.mem_map_of_mem _ ht
  · intro s _ _ hnot r hr heq
    have hmem : r.server_id ∈ (deploy_to_servers w registry server_ids config).1.map
        (fun r => r.server_id) := List.mem_map_of_mem _ hr
    rw [hres] at hmem
    rw [heq] at hmem
    exact hnot hmem

/-- Witness for C2 at a concrete input: one registered server, one
requested id. -/
theorem deploy_to_servers_cap_witness :
    (selectTargets [tgtA] ["a"]).length ≤ MAX_PARALLEL_DEPLOYMENTS ∧
    ((deploy_to_servers wOk [tgtA] ["a"] cfg0).1.map (fun r => r.server_id)
       = (selectTargets [tgtA] ["a"]).map (fun s => s.id)) :=
  ⟨(deploy_to_servers_cap wOk [tgtA] ["a"] cfg0).1,
   (deploy_to_servers_cap wOk [tgtA] ["a"] cfg0).2.1⟩

/-- C3: for a registered server the rollback saga runs its three
compensating commands unconditionally in the fixed order stop_daemon,
remove_config, uninstall_openclaw (the network trace is the concatenation
of all three command traces, whatever each outcome), collects exactly the
names of the succeeding stages in that order, resets the registry status to
pending in its single write regardless of partial failure, and reports
success exactly when no stage failed. -/
theorem rollback_server_saga (w : SshWorld) (registry : List ServerTarget) (id : String)
    (server : ServerTarget)
    (hfind : registry.find? (fun s => s.id == id) = some server) :
    ∃ res, (rollback_server w registry id).result = .ok res ∧
      res.completed_stages =
        ((if exceptIsOk (exec_remote w server.host server.username stopDaemonCmd).1
            then ["stop_daemon"] else []) ++
         (if exceptIsOk (exec_remote w server.host server.username rmConfigCmd).1
            then ["remove_config"] else []) ++
         (if exceptIsOk (exec_remote w server.host server.username uninstallCmd).1
            then ["uninstall_openclaw"] else [])) ∧
      res.success =
        (exceptIsOk (exec_remote w server.host server.username stopDaemonCmd).1 &&
         exceptIsOk (exec_remote w server.host server.username rmConfigCmd).1 &&
         exceptIsOk (exec_remote w server.host server.username uninstallCmd).1) ∧
      (rollback_server w registry id).netEvents =
        (exec_remote w server.host server.username stopDaemonCmd).2 ++
        (exec_remote w server.host server.username rmConfigCmd).2 ++
        (exec_remote w server.host server.username uninstallCmd).2 ∧
      (rollback_server w registry id).registryWrites = [updateFirst registry id "pending"] := by
  unfold rollback_server
  rw [hfind]
  rcases h1 : exec_remote w server.host server.username stopDaemonCmd with ⟨r1, n1⟩
  rcases h2 : exec_remote w server.host server.username rmConfigCmd with ⟨r2, n2⟩
  rcases h3 : exec_remote w server.host server.username uninstallCmd with ⟨r3, n3⟩
  cases r1 <;> cases r2 <;> cases r3 <;> simp [exceptIsOk, h1, h2, h3]

/-- Witness for C3: the saga applied to the registered server `tgtA` on the
all-success network. -/
theorem rollback_server_saga_witness :
    ∃ res, (rollback_server wOk [tgtA] "a").result = .ok res ∧
      res.completed_stages =
        ((if exceptIsOk (exec_remote wOk tgtA.host tgtA.username stopDaemonCmd).1
            then ["stop_daemon"] else []) ++
         (if exceptIsOk (exec_remote wOk tgtA.host tgtA.username rmConfigCmd).1
            then ["remove_config"] else []) ++
         (if exceptIsOk (exec_remote wOk tgtA.host tgtA.username uninstallCmd).1
            then ["uninstall_openclaw"] else [])) ∧
      res.success =
        (exceptIsOk (exec_remote wOk tgtA.host tgtA.username stopDaemonCmd).1 &&
         exceptIsOk (exec_remote wOk tgtA.host tgtA.username rmConfigCmd).1 &&
         exceptIsOk (exec_remote wOk tgtA.host tgtA.username uninstallCmd).1) ∧
      (rollback_server wOk [tgtA] "a").netEvents =
        (exec_remote wOk tgtA.host tgtA.username stopDaemonCmd).2 ++
        (exec_remote wOk tgtA.host tgtA.username rmConfigCmd).2 ++
        (exec_remote wOk tgtA.host tgtA.username uninstallCmd).2 ∧
      (rollback_server wOk [tgtA] "a").registryWrites = [updateFirst [tgtA] "a" "pending"] :=
  rollback_server_saga wOk [tgtA] "a" tgtA (by rfl)

/-- C4: for every syntactically valid (host, user) pair, `check_connection`
returns Ok true on a successful connection, returns Ok false — a boolean,
not an error — when the connect error is classified as an authentication
rejection, and returns Err exactly for the remaining (non-authentication)
failures such as host-identity mismatch or network errors. -/
theorem check_connection_classification (w : SshWorld) (host user : String)
    (hh : validate_host host = .ok ()) (hu : validate_username user = .ok ()) :
    (w.connect host user = .ok () →
       check_connection w host user = (.ok true, [.connect host user])) ∧
    (∀ e, w.connect host user = .error e → isAuthError e = true →
       check_connection w host user = (.ok false, [.connect host user])) ∧
    (∀ e, w.connect host user = .error e → isAuthError e = false →
       check_connection w host user =
         (.error ("Failed to establish SSH connection to " ++ user ++ "@" ++ host ++ ": " ++ e),
          [.connect host user])) := by
  refine ⟨?_, ?_, ?_⟩
  · intro hc
    simp [check_connection, hh, hu, hc]
  · intro e hc ha
    simp [check_connection, hh, hu, hc, ha]
  · intro e hc ha
    simp [check_connection, hh, hu, hc, ha]

/-- Witness for C4: an authentication rejection comes back as Ok false. -/
theorem check_connection_classification_witness :
    check_connection wAuthReject "example.com" "root" =
      (.ok false, [.connect "example.com" "root"]) :=
  (check_connection_classification wAuthReject "example.com" "root" (by rfl) (by rfl)).2.1
    "authentication failure" (by rfl) (by rfl)

/-- C5: whenever host or user fails validation, all three gateway
operations return a validation error with an empty network trace — no
connection attempt, no command; and a host containing a whitespace
character or a `'@'` always fails validation. -/
theorem invalid_input_blocks_network (w : SshWorld) (host user cmd : String) :
    ((validate_host host ≠ .ok () ∨ validate_username user ≠ .ok ()) →
       (∃ e, check_connection w host user = (.error e, [])) ∧
       (∃ e, exec_remote w host user cmd = (.error e, [])) ∧
       (∃ e, stream_remote_command w host user cmd = (.error e, []))) ∧
    (∀ c ∈ host.data, (c.isWhitespace = true ∨ c = '@') → validate_host host ≠ .ok ()) := by
  constructor
  · intro h
    have hcases : (∃ e, validate_host host = .error e) ∨
        (validate_host host = .ok () ∧ ∃ e, validate_username user = .error e) := by
      match hh : validate_host host with
      | .error e => exact .inl ⟨e, rfl⟩
      | .ok u =>
        cases u
        match hu : validate_username user with
        | .error e => exact .inr ⟨rfl, e, rfl⟩
        | .ok u' =>
          cases u'
          rcases h with h | h
          · exact absurd hh h
          · exact absurd hu h
    rcases hcases with ⟨e, he⟩ | ⟨hok, e, he⟩
    · exact ⟨⟨e, by simp [check_connection, he]⟩, ⟨e, by simp [exec_remote, he]⟩,
        ⟨e, by simp [stream_remote_command, he]⟩⟩
    · exact ⟨⟨e, by simp [check_connection, hok, he]⟩, ⟨e, by simp [exec_remote, hok, he]⟩,
        ⟨e, by simp [stream_remote_command, hok, he]⟩⟩
  · intro c hc hw hok
    have hall : host.data.all isHostChar = true := by
      unfold validate_host at hok
      split at hok
      · exact absurd hok (by simp)
      · split at hok
        · assumption
        · exact absurd hok (by simp)
    have hchar := List.all_eq_true.mp hall c hc
    rw [isHostChar_ws_at_false c hw] at hchar
    exact absurd hchar (by simp)

/-- Witness for C5: a host with a space is rejected with no network
event. -/
theorem invalid_input_blocks_network_witness :
    ∃ e, check_connection wOk "bad host" "root" = (.error e, []) := by
  have hne : validate_host "bad host" ≠ .ok () := by
    intro h
    have h2 : (Except.error "Invalid host format: bad host" : Except String Unit) = .ok () := h
    exact Except.noConfusion h2
  exact ((invalid_input_blocks_network wOk "bad host" "root" "ls").1 (.inl hne)).1

/-- C6: rollback of an id that is not in the registry returns the
not-found error, performs no remote command and writes nothing. -/
theorem rollback_server_unknown_id (w : SshWorld) (registry : List ServerTarget) (id : String)
    (h : ∀ s ∈ registry, s.id ≠ id) :
    rollback_server w registry id =
      { result := .error ("Server not found: " ++ id),
        registryWrites := [], netEvents := [] } := by
  have hf : registry.find? (fun s => s.id == id) = none := by
    rw [List.find?_eq_none]
    intro s hs
    simpa using h s hs
  simp [rollback_server, hf]

/-- Witness for C6: rollback of the unknown id `"b"` against a registry
holding only `"a"`. -/
theorem rollback_server_unknown_id_witness :
    rollback_server wOk [tgtA] "b" =
      { result := .error ("Server not found: " ++ "b"),
        registryWrites := [], netEvents := [] } :=
  rollback_server_unknown_id wOk [tgtA] "b" (by decide)

/-- C7: a registry file produced by `save_servers` loads back to exactly
the saved list, so a load-then-save cycle reproduces the identical file
content (the printer is deterministic in the value). -/
theorem registry_save_load_round_trip (l : List ServerTarget) :
    serversFromJson (serversToJson l) = some l ∧
    (serversFromJson (serversToJson l)).map serversToJson = some (serversToJson l) := by
  have h1 : serversFromJson (serversToJson l) = some l := by
    show targetsFromJsonList (l.map serverTargetToJson) = some l
    induction l with
    | nil => rfl
    | cons s rest ih =>
      simp [targetsFromJsonList, target_round_trip, ih]
  exact ⟨h1, by rw [h1]; rfl⟩

/-- C8 counterexample: the claim asserts id uniqueness survives
`add_server` even for a target whose non-empty id already occurs.  It does
not: `add_server` appends unconditionally, so adding `tgtA2` (id `"a"`) to
a registry already holding `tgtA` (id `"a"`) yields a duplicate id. -/
theorem add_server_duplicate_id_cex :
    ¬ NoDupIds (add_server [tgtA] tgtA2 "srv-1").1 := by
  unfold NoDupIds
  decide

/-- C8 (amended): id uniqueness is preserved by `remove_server` and by
status updates, and by `add_server` exactly when the effective id of the
added target does not already occur in the registry. -/
theorem registry_nodup_preserved (registry : List ServerTarget) (h : NoDupIds registry) :
    (∀ server genId,
        (add_server registry server genId).2.id ∉ registry.map (fun s => s.id) →
        NoDupIds (add_server registry server genId).1) ∧
    (∀ id l, remove_server registry id = .ok l → NoDupIds l) ∧
    (∀ id st, NoDupIds (updateFirst registry id st)) := by
  refine ⟨?_, ?_, ?_⟩
  · intro server genId hmem
    have hfst : (add_server registry server genId).1
        = registry ++ [(add_server registry server genId).2] := rfl
    rw [hfst]
    unfold NoDupIds at h ⊢
    rw [List.map_append, List.nodup_append]
    refine ⟨h, by simp, ?_⟩
    intro x hx hx2
    simp only [List.map_cons, List.map_nil, List.mem_singleton] at hx2
    subst hx2
    exact hmem hx
  · intro id l hl
    simp only [remove_server] at hl
    split at hl
    · exact absurd hl (by simp)
    · have hfe : l = registry.filter (fun s => !(s.id == id)) := by
        injection hl with h'
        exact h'.symm
      subst hfe
      unfold NoDupIds at h ⊢
      exact List.Nodup.sublist ((List.filter_sublist registry).map (fun s => s.id)) h
  · intro id st
    unfold NoDupIds
    rw [updateFirst_map_id]
    exact h

/-- Witness for the amended C8: a status update on a singleton registry
keeps ids unique. -/
theorem registry_nodup_preserved_witness :
    NoDupIds (updateFirst [tgtA] "a" "deployed") :=
  (registry_nodup_preserved [tgtA] (by simp [NoDupIds])).2.2 "a" "deployed"

/-- C9: the claim states that stdout lines are forwarded live, before the
remote command completes.  The code buffers the complete output first: at
a command producing stdout `"hello\nworld\n"` and stderr `"oops\n"`, the
trace places `execDone` (command completion, output fully buffered) before
every channel send; the sends do deliver every stdout line in order and
label stderr lines with the `"STDERR: "` prefix, and the full buffered
result is returned. -/
theorem stream_remote_command_buffers_all_output :
    stream_remote_command wStream "example.com" "root" "make" =
      (.ok { stdout := "hello\nworld\n", stderr := "oops\n", exit_code := 0 },
       [.connect "example.com" "root", .execDone "example.com" "root" "make",
        .send "hello", .send "world", .send "STDERR: oops"]) := by rfl

/-- C10: with a valid (host, user) pair, `exec_remote` and
`stream_remote_command` reject an empty command with the dedicated error
message and an empty network trace — before any connection attempt. -/
theorem empty_command_rejected_before_connect (w : SshWorld) (host user : String)
    (hh : validate_host host = .ok ()) (hu : validate_username user = .ok ()) :
    exec_remote w host user "" = (.error "Remote command cannot be empty", []) ∧
    stream_remote_command w host user "" = (.error "Remote command cannot be empty", []) := by
  constructor <;>
    simp [exec_remote, stream_remote_command, hh, hu,
      show ("" : String).isEmpty = true from rfl]

/-- Witness for C10 at the valid pair (example.com, root). -/
theorem empty_command_rejected_before_connect_witness :
    exec_remote wOk "example.com" "root" "" = (.error "Remote command cannot be empty", []) ∧
    stream_remote_command wOk "example.com" "root" ""
      = (.error "Remote command cannot be empty", []) :=
  empty_command_rejected_before_connect wOk "example.com" "root" (by rfl) (by rfl)
